import Mathlib

/-!
Shallow embedding of the abolish-vue reactive validation binders
(src/unnamed/part_000) and proofs of the specified properties.

Values validated by the engine are modelled as integers, errors and rule
atoms as strings, reactive objects as association lists from field names to
values.  The Abolish validation engine is external to this repository and is
modelled as an arbitrary record of check/validate/test functions; the
process-wide default engine (the imported `Abolish` class with its static
methods) is a distinguished engine value passed in explicitly.
-/

namespace AbolishVue

abbrev Value := Int
abbrev Err := String

/-- Rules are opaque to the binder; the only binder-side operation is
wrapping a rule with a `$name` tag (`Rule([rules, { $name: options.name }])`). -/
inductive RuleT
  | base (s : String)
  | withName (r : RuleT) (n : String)
deriving DecidableEq, Repr

abbrev Obj := List (String × Value)
abbrev RuleMapT := List (String × RuleT)

/-- The external validation engine handle: an object capable of
check/checkAsync/validate/validateAsync/test/testAsync.  Async calls are
modelled by the pair they eventually resolve with. -/
structure Abolish where
  check : Value → RuleT → Option Err × Value
  checkAsync : Value → RuleT → Option Err × Value
  validate : Obj → RuleMapT → Option Err × Obj
  validateAsync : Obj → RuleMapT → Option Err × Obj
  test : Value → RuleT → Bool
  testAsync : Value → RuleT → Bool

/-- The `delay` option: `number | true` in the source. -/
inductive JSDelay
  | num (n : Nat)
  | tru
deriving DecidableEq, Repr

/-- AbolishVueOptions from the source: `{ async?, delay?, Abolish?, immediate? }`. -/
structure AbolishVueOptions where
  async : Option Bool := none
  delay : Option JSDelay := none
  Abolish : Option Abolish := none
  immediate : Option Bool := none

/-- VRefOptions adds the optional `name` field. -/
structure VRefOptions extends AbolishVueOptions where
  name : Option String := none

/-- JavaScript truthiness of an optional boolean (`if (options.async)`). -/
def optTruthy : Option Bool → Bool
  | some b => b
  | none => false

/-- JavaScript truthiness of an optional string (`if (options.name)`):
an empty string is falsy. -/
def strTruthy : Option String → Bool
  | some s => s.length != 0
  | none => false

/-- JavaScript truthiness of the `delay` option (`if (options.delay)`):
the number 0 is falsy, `true` and nonzero numbers are truthy. -/
def delayTruthy : Option JSDelay → Bool
  | some (.num n) => n != 0
  | some .tru => true
  | none => false

/-- The debounce window handed to watchDebounced:
`options.delay === true ? 1000 : options.delay`. -/
def delayMs : JSDelay → Nat
  | .tru => 1000
  | .num n => n

/-- The immediate flag handed to watch/watchDebounced:
`options.immediate !== false`. -/
def immediateFlag (o : Option Bool) : Bool := o != some false

/-- Engine resolution, `options.Abolish || inject("abolish", Abolish)`:
the explicit option if present (engine handles are objects, hence truthy),
otherwise the value injected under the key "abolish", otherwise the
process-wide default engine. -/
def resolveAbolish (explicitA : Option Abolish) (injected : Option Abolish)
    (defaultA : Abolish) : Abolish :=
  match explicitA with
  | some a => a
  | none =>
    match injected with
    | some a => a
    | none => defaultA

/-- The watch branch taken: `if (options.delay)` selects watchDebounced with
window `delay === true ? 1000 : delay`, otherwise a plain watch. -/
def debounceOf (delay : Option JSDelay) : Option Nat :=
  if delayTruthy delay then
    match delay with
    | some dl => some (delayMs dl)
    | none => none
  else none

/-!  Scalar binder `vRef`.  -/

/-- The two refs written by vRef's watch callback. -/
structure VRefState where
  error : Option Err
  validated : Value
deriving DecidableEq, Repr

/-- The binding produced by calling `vRef(def, rules, options)`: the resolved
engine, the (possibly name-wrapped) rule, the captured options, and the
initial contents of the `original`, `error` and `validated` refs, together
with the watch configuration. -/
structure VRefBinding where
  abolish : Abolish
  rules : RuleT
  options : VRefOptions
  original : Value
  error : Option Err
  validated : Value
  immediate : Bool
  debounce : Option Nat

/-- Construction of a vRef binding, line for line from the source:
resolve the engine, create `error = ref()`, `original = ref(def)`,
`validated = ref(def)`, wrap the rule when `options.name` is truthy,
and register the watch with `immediate: options.immediate !== false`
and the debounce window when `options.delay` is truthy. -/
def vRefMk (defaultA : Abolish) (injected : Option Abolish) (def_ : Value)
    (rules : RuleT) (options : VRefOptions) : VRefBinding :=
  { abolish := resolveAbolish options.Abolish injected defaultA
    rules :=
      match options.name with
      | some n => if n.length != 0 then RuleT.withName rules n else rules
      | none => rules
    options := options
    original := def_
    error := none
    validated := def_
    immediate := immediateFlag options.immediate
    debounce := debounceOf options.delay }

/-- vRef's watch callback, acting on the `(error, validated)` ref pair:
`error.value = e ? e : undefined; if (!e) validated.value = r;` — identical
write rule in the synchronous branch and in the `.then` of the asynchronous
branch (the state after the async call resolves). -/
def vRefStep (b : VRefBinding) (newVal : Value) (s : VRefState) : VRefState :=
  if optTruthy b.options.async then
    let er := b.abolish.checkAsync newVal b.rules
    { error := er.1, validated := if er.1.isSome then s.validated else er.2 }
  else
    let er := b.abolish.check newVal b.rules
    { error := er.1, validated := if er.1.isSome then s.validated else er.2 }

/-- vRefAsArray delegates to vRef and only reshapes the returned triple. -/
def vRefAsArrayMk (defaultA : Abolish) (injected : Option Abolish) (def_ : Value)
    (rules : RuleT) (options : VRefOptions) : VRefBinding :=
  vRefMk defaultA injected def_ rules options

/-- vRefExtended delegates to vRef and merges error/validated onto original. -/
def vRefExtendedMk (defaultA : Abolish) (injected : Option Abolish) (def_ : Value)
    (rules : RuleT) (options : VRefOptions) : VRefBinding :=
  vRefMk defaultA injected def_ rules options

/-!  Object binder `vReactive`.  -/

/-- The two refs written by vReactive's watch callback. -/
structure VReactiveState where
  error : Option Err
  validated : Obj
deriving DecidableEq, Repr

/-- The binding produced by calling `vReactive(target, rules, options)`. -/
structure VReactiveBinding where
  abolish : Abolish
  rules : RuleMapT
  options : AbolishVueOptions
  original : Obj
  error : Option Err
  validated : Obj
  immediate : Bool
  debounce : Option Nat

/-- Construction of a vReactive binding: resolve the engine, make the target
reactive, create `error = ref()` and `validated = ref({})`, and register the
watch with the same immediate/debounce handling as vRef. -/
def vReactiveMk (defaultA : Abolish) (injected : Option Abolish) (target : Obj)
    (rules : RuleMapT) (options : AbolishVueOptions) : VReactiveBinding :=
  { abolish := resolveAbolish options.Abolish injected defaultA
    rules := rules
    options := options
    original := target
    error := none
    validated := []
    immediate := immediateFlag options.immediate
    debounce := debounceOf options.delay }

/-- vReactive's watch callback: `error.value = e ? e : undefined;
validated.value = r;` — both refs written unconditionally, in both the
synchronous branch and the `.then` of the asynchronous branch. -/
def vReactiveStep (b : VReactiveBinding) (newVal : Obj) (_s : VReactiveState) :
    VReactiveState :=
  if optTruthy b.options.async then
    let er := b.abolish.validateAsync newVal b.rules
    { error := er.1, validated := er.2 }
  else
    let er := b.abolish.validate newVal b.rules
    { error := er.1, validated := er.2 }

/-- vReactiveAsArray delegates to vReactive and only reshapes the triple. -/
def vReactiveAsArrayMk (defaultA : Abolish) (injected : Option Abolish)
    (target : Obj) (rules : RuleMapT) (options : AbolishVueOptions) :
    VReactiveBinding :=
  vReactiveMk defaultA injected target rules options

/-!  External-source checkers `rCheck`, `rCheckOnly`, `rTest`.  -/

/-- The two refs returned by rCheck: `error = ref()` and `validated = ref()`
(the latter starts undefined, hence Option). -/
structure RCheckState where
  error : Option Err
  validated : Option Value
deriving DecidableEq, Repr

/-- The binding produced by calling `rCheck(source, rule, options)`. -/
structure RCheckBinding where
  abolish : Abolish
  rule : RuleT
  options : AbolishVueOptions
  error : Option Err
  validated : Option Value
  immediate : Bool
  debounce : Option Nat

/-- Construction of an rCheck binding from the source. -/
def rCheckMk (defaultA : Abolish) (injected : Option Abolish) (rule : RuleT)
    (options : AbolishVueOptions) : RCheckBinding :=
  { abolish := resolveAbolish options.Abolish injected defaultA
    rule := rule
    options := options
    error := none
    validated := none
    immediate := immediateFlag options.immediate
    debounce := debounceOf options.delay }

/-- rCheck's watch callback: `error.value = e ? e : undefined;
validated.value = v;` — both written unconditionally on every attempt. -/
def rCheckStep (b : RCheckBinding) (newValue : Value) (_s : RCheckState) :
    RCheckState :=
  if optTruthy b.options.async then
    let d := b.abolish.checkAsync newValue b.rule
    { error := d.1, validated := some d.2 }
  else
    let d := b.abolish.check newValue b.rule
    { error := d.1, validated := some d.2 }

/-- rCheck returns `[error, validated]`. -/
def rCheckRet (b : RCheckBinding) : Option Err × Option Value :=
  (b.error, b.validated)

/-- The binding produced by calling `rCheckOnly(source, rule, options)`:
only an `error` ref is created. -/
structure RCheckOnlyBinding where
  abolish : Abolish
  rule : RuleT
  options : AbolishVueOptions
  error : Option Err
  immediate : Bool
  debounce : Option Nat

/-- Construction of an rCheckOnly binding from the source. -/
def rCheckOnlyMk (defaultA : Abolish) (injected : Option Abolish) (rule : RuleT)
    (options : AbolishVueOptions) : RCheckOnlyBinding :=
  { abolish := resolveAbolish options.Abolish injected defaultA
    rule := rule
    options := options
    error := none
    immediate := immediateFlag options.immediate
    debounce := debounceOf options.delay }

/-- rCheckOnly's watch callback.  In the asynchronous branch the source calls
`abolish.checkAsync` on the resolved engine, but in the synchronous branch it
calls the static `Abolish.check` — the process-wide default engine
(`defaultA` here), not the resolved `abolish`. -/
def rCheckOnlyStep (defaultA : Abolish) (b : RCheckOnlyBinding)
    (newValue : Value) : Option Err :=
  if optTruthy b.options.async then
    (b.abolish.checkAsync newValue b.rule).1
  else
    (defaultA.check newValue b.rule).1

/-- The binding produced by calling `rTest(source, rule, options)`:
a single boolean ref, initialised to true. -/
structure RTestBinding where
  abolish : Abolish
  rule : RuleT
  options : AbolishVueOptions
  result : Bool
  immediate : Bool
  debounce : Option Nat

/-- Construction of an rTest binding from the source. -/
def rTestMk (defaultA : Abolish) (injected : Option Abolish) (rule : RuleT)
    (options : AbolishVueOptions) : RTestBinding :=
  { abolish := resolveAbolish options.Abolish injected defaultA
    rule := rule
    options := options
    result := true
    immediate := immediateFlag options.immediate
    debounce := debounceOf options.delay }

/-- rTest's watch callback: write the boolean result of test/testAsync. -/
def rTestStep (b : RTestBinding) (newValue : Value) : Bool :=
  if optTruthy b.options.async then
    b.abolish.testAsync newValue b.rule
  else
    b.abolish.test newValue b.rule

/-!  Subscription call traces: plain watch and debounced watch.  -/

/-- Modelled from the spec: the trailing-edge debounce primitive is the
external `watchDebounced` collaborator (the "subscribe with trailing-edge
delay" capability of the interface table), not code of this repository.
Given timed change events in chronological order, a change at time `t`
fires at `t + d` unless a later change arrives at or before `t + d`;
the last change of a burst always fires. -/
def debouncedFires (d : Nat) : List (Nat × Value) → List Value
  | [] => []
  | [(_t, v)] => [v]
  | (t, v) :: (t2, v2) :: rest =>
    (if t + d < t2 then [v] else []) ++ debouncedFires d ((t2, v2) :: rest)

/-- The values handed to the watch callback by change events, depending on
which watch branch the binder registered: debounced with window `d`, or a
plain watch that forwards every change. -/
def changeCalls (debounce : Option Nat) (events : List (Nat × Value)) :
    List Value :=
  match debounce with
  | some d => debouncedFires d events
  | none => events.map Prod.snd

/-- All values handed to vRef's watch callback: the immediate invocation on
binding creation (present iff `options.immediate !== false`) followed by the
change-triggered invocations. -/
def VRefBinding.calls (b : VRefBinding) (events : List (Nat × Value)) :
    List Value :=
  (if b.immediate then [b.original] else []) ++ changeCalls b.debounce events

/-!  Context installer `AbolishPlugin`.  -/

/-- Observable effects of AbolishPlugin.install, in execution order. -/
inductive InstallEvent
  | initCalled
  | factoryCalled
  | constructedDefault
  | provided (key : String)
deriving DecidableEq, Repr

/-- Options of the plugin: presence of the `init` callback, and the optional
`abolish` factory (modelled by the engine the factory returns). -/
structure AbolishPluginOptions where
  init : Option Unit := none
  abolish : Option Abolish := none

/-- AbolishPlugin.install from the source: run `options.init()` if present,
then resolve the engine (`options.abolish()` if supplied, otherwise
`new Abolish()`, modelled by `newA`), then `app.provide("abolish", abolish)`.
Returns the trace of effects and the updated provide table. -/
def AbolishPlugin.install (options : AbolishPluginOptions) (newA : Abolish)
    (app : List (String × Abolish)) :
    List InstallEvent × List (String × Abolish) :=
  let initEvents :=
    if options.init.isSome then [InstallEvent.initCalled] else []
  let resolved : List InstallEvent × Abolish :=
    match options.abolish with
    | some a => ([InstallEvent.factoryCalled], a)
    | none => ([InstallEvent.constructedDefault], newA)
  (initEvents ++ resolved.1 ++ [InstallEvent.provided "abolish"],
   app ++ [("abolish", resolved.2)])

/-!  Concrete engines used to instantiate the universally quantified
theorems at specific inputs.  -/

/-- An engine that rejects every value with the error "bad" and echoes the
input as the attempt's result. -/
def engBad : Abolish :=
  { check := fun v _ => (some "bad", v)
    checkAsync := fun v _ => (some "bad", v)
    validate := fun o _ => (some "bad", o)
    validateAsync := fun o _ => (some "bad", o)
    test := fun _ _ => false
    testAsync := fun _ _ => false }

/-- An engine that accepts every value and transforms it by adding one
(object validation echoes the object). -/
def engOk : Abolish :=
  { check := fun v _ => (none, v + 1)
    checkAsync := fun v _ => (none, v + 1)
    validate := fun o _ => (none, o)
    validateAsync := fun o _ => (none, o)
    test := fun _ _ => true
    testAsync := fun _ _ => true }

/-- A default engine whose sync and async checks report distinctive errors,
used to tell apart which engine a branch consulted. -/
def engDef : Abolish :=
  { check := fun v _ => (some "from-default", v)
    checkAsync := fun v _ => (some "from-default-async", v)
    validate := fun o _ => (some "from-default", o)
    validateAsync := fun o _ => (some "from-default", o)
    test := fun _ _ => false
    testAsync := fun _ _ => false }

/-- An engine that accepts everything, standing for the engine explicitly
resolved for a call (distinct in behavior from `engDef`). -/
def engRes : Abolish :=
  { check := fun v _ => (none, v)
    checkAsync := fun v _ => (none, v)
    validate := fun o _ => (none, o)
    validateAsync := fun o _ => (none, o)
    test := fun _ _ => true
    testAsync := fun _ _ => true }

/-!  Helper lemmas.  -/

/-- A burst of chronologically ordered changes all lying strictly inside the
window `[t0, t0 + d)` produces exactly one debounced fire, carrying the last
value. -/
theorem debouncedFires_burst (d : Nat) (events : List (Nat × Value)) :
    ∀ (t0 tn : Nat) (vn : Value),
      (∀ e ∈ events, e.1 < t0 + d) →
      List.Chain' (fun a b : Nat × Value => a.1 < b.1) events →
      (∀ th v, events.head? = some (th, v) → t0 ≤ th) →
      events.getLast? = some (tn, vn) →
      debouncedFires d events = [vn] := by
  induction events with
  | nil =>
    intro t0 tn vn _ _ _ hlast
    simp at hlast
  | cons a rest ih =>
    intro t0 tn vn hwin hchain hhead hlast
    cases rest with
    | nil =>
      simp only [List.getLast?_singleton, Option.some.injEq] at hlast
      subst hlast
      simp [debouncedFires]
    | cons b rest2 =>
      have hab : a.1 < b.1 := (List.chain'_cons.mp hchain).1
      have ht0a : t0 ≤ a.1 := hhead a.1 a.2 (by simp)
      have hbwin : b.1 < t0 + d := hwin b (by simp)
      have hnofire : ¬ a.1 + d < b.1 := by omega
      have hrest : debouncedFires d (b :: rest2) = [vn] := by
        refine ih t0 tn vn ?_ (List.chain'_cons.mp hchain).2 ?_ ?_
        · intro e he
          exact hwin e (List.mem_cons_of_mem a he)
        · intro th v hh
          simp only [List.head?_cons, Option.some.injEq] at hh
          have hth : th = b.1 := by rw [hh]
          omega
        · rw [List.getLast?_cons_cons] at hlast
          exact hlast
      calc debouncedFires d (a :: b :: rest2)
          = (if a.1 + d < b.1 then [a.2] else []) ++ debouncedFires d (b :: rest2) := by
            rfl
        _ = [vn] := by rw [if_neg hnofire, hrest, List.nil_append]

/-- In synchronous mode the watch callback of vRef computes exactly the
sync-branch write rule. -/
theorem vRefStep_sync (b : VRefBinding) (newVal : Value) (s : VRefState)
    (hsync : optTruthy b.options.async = false) :
    vRefStep b newVal s =
      { error := (b.abolish.check newVal b.rules).1
        validated :=
          if (b.abolish.check newVal b.rules).1.isSome then s.validated
          else (b.abolish.check newVal b.rules).2 } := by
  simp [vRefStep, hsync]

/-!  Claim theorems.  -/

/-- Claim C1: for the scalar binder vRef (and its array and extended
variants, which delegate to it), after a synchronous validation in which the
engine's check returns an error, the error ref is populated with that error
and the validated ref is unchanged from its value before the attempt. -/
theorem claim_C1 (defaultA : Abolish) (injected : Option Abolish) (def_ : Value)
    (rules : RuleT) (options : VRefOptions) (newVal : Value) (s : VRefState)
    (e : Err)
    (hsync : optTruthy options.async = false)
    (herr : ((vRefMk defaultA injected def_ rules options).abolish.check newVal
        (vRefMk defaultA injected def_ rules options).rules).1 = some e) :
    (vRefStep (vRefMk defaultA injected def_ rules options) newVal s).error
      = some e ∧
    (vRefStep (vRefMk defaultA injected def_ rules options) newVal s).validated
      = s.validated ∧
    vRefAsArrayMk defaultA injected def_ rules options
      = vRefMk defaultA injected def_ rules options ∧
    vRefExtendedMk defaultA injected def_ rules options
      = vRefMk defaultA injected def_ rules options := by
  rw [vRefStep_sync (vRefMk defaultA injected def_ rules options) newVal s hsync]
  refine ⟨herr, ?_, rfl, rfl⟩
  simp [herr]

/-- Witness for claim C1 at the everything-rejecting engine. -/
theorem claim_C1_witness :
    (vRefStep (vRefMk engBad none 5 (RuleT.base "r") {}) 7 ⟨none, 5⟩).error
      = some "bad" ∧
    (vRefStep (vRefMk engBad none 5 (RuleT.base "r") {}) 7 ⟨none, 5⟩).validated
      = 5 ∧
    vRefAsArrayMk engBad none 5 (RuleT.base "r") {}
      = vRefMk engBad none 5 (RuleT.base "r") {} ∧
    vRefExtendedMk engBad none 5 (RuleT.base "r") {}
      = vRefMk engBad none 5 (RuleT.base "r") {} :=
  claim_C1 engBad none 5 (RuleT.base "r") {} 7 ⟨none, 5⟩ "bad" rfl rfl

/-- Claim C4: for the scalar binder, after a synchronous validation in which
the engine's check returns no error, the error ref is absent and the
validated ref equals the transformed value the engine returned. -/
theorem claim_C4 (defaultA : Abolish) (injected : Option Abolish) (def_ : Value)
    (rules : RuleT) (options : VRefOptions) (newVal : Value) (s : VRefState)
    (r : Value)
    (hsync : optTruthy options.async = false)
    (hok : (vRefMk defaultA injected def_ rules options).abolish.check newVal
        (vRefMk defaultA injected def_ rules options).rules = (none, r)) :
    (vRefStep (vRefMk defaultA injected def_ rules options) newVal s).error
      = none ∧
    (vRefStep (vRefMk defaultA injected def_ rules options) newVal s).validated
      = r := by
  rw [vRefStep_sync (vRefMk defaultA injected def_ rules options) newVal s hsync]
  constructor
  · simp [hok]
  · simp [hok]

/-- Witness for claim C4 at the everything-accepting engine that adds one. -/
theorem claim_C4_witness :
    (vRefStep (vRefMk engOk none 5 (RuleT.base "r") {}) 7 ⟨none, 5⟩).error
      = none ∧
    (vRefStep (vRefMk engOk none 5 (RuleT.base "r") {}) 7 ⟨none, 5⟩).validated
      = 8 :=
  claim_C4 engOk none 5 (RuleT.base "r") {} 7 ⟨none, 5⟩ 8 rfl rfl

/-- Claim C2: for the object binder vReactive (and its array variant), after
every validation attempt — error or not — both refs are overwritten with
exactly the pair the engine returned for that attempt (the result does not
depend on the previous state), unlike the scalar binder, which keeps its
previous validated value on failure (shown at a concrete failing engine). -/
theorem claim_C2 (defaultA : Abolish) (injected : Option Abolish) (target : Obj)
    (rules : RuleMapT) (options : AbolishVueOptions) (newVal : Obj)
    (s : VReactiveState) :
    (vReactiveStep (vReactiveMk defaultA injected target rules options) newVal s).error
      = (if optTruthy (vReactiveMk defaultA injected target rules options).options.async
         then ((vReactiveMk defaultA injected target rules options).abolish.validateAsync
                newVal (vReactiveMk defaultA injected target rules options).rules).1
         else ((vReactiveMk defaultA injected target rules options).abolish.validate
                newVal (vReactiveMk defaultA injected target rules options).rules).1) ∧
    (vReactiveStep (vReactiveMk defaultA injected target rules options) newVal s).validated
      = (if optTruthy (vReactiveMk defaultA injected target rules options).options.async
         then ((vReactiveMk defaultA injected target rules options).abolish.validateAsync
                newVal (vReactiveMk defaultA injected target rules options).rules).2
         else ((vReactiveMk defaultA injected target rules options).abolish.validate
                newVal (vReactiveMk defaultA injected target rules options).rules).2) ∧
    vReactiveAsArrayMk defaultA injected target rules options
      = vReactiveMk defaultA injected target rules options ∧
    (vReactiveStep (vReactiveMk engBad none [] [] {}) [("a", 1)]
        ⟨none, [("old", 0)]⟩).validated = [("a", 1)] ∧
    (vRefStep (vRefMk engBad none 0 (RuleT.base "r") {}) 1 ⟨none, 0⟩).validated
      = 0 := by
  refine ⟨?_, ?_, rfl, rfl, rfl⟩ <;>
    · simp only [vReactiveStep]
      split <;> rfl

/-- Claim C8: rCheck returns the pair (error, validated); its watch callback
writes both refs unconditionally with the engine's returned pair — on a
failing check the validated ref is overwritten rather than kept (shown at a
concrete failing engine), differing from the scalar binder vRef. -/
theorem claim_C8 (defaultA : Abolish) (injected : Option Abolish) (rule : RuleT)
    (options : AbolishVueOptions) (newValue : Value) (s : RCheckState) :
    rCheckRet (rCheckMk defaultA injected rule options)
      = ((rCheckMk defaultA injected rule options).error,
         (rCheckMk defaultA injected rule options).validated) ∧
    (rCheckStep (rCheckMk defaultA injected rule options) newValue s).error
      = (if optTruthy (rCheckMk defaultA injected rule options).options.async
         then ((rCheckMk defaultA injected rule options).abolish.checkAsync
                newValue (rCheckMk defaultA injected rule options).rule).1
         else ((rCheckMk defaultA injected rule options).abolish.check
                newValue (rCheckMk defaultA injected rule options).rule).1) ∧
    (rCheckStep (rCheckMk defaultA injected rule options) newValue s).validated
      = some (if optTruthy (rCheckMk defaultA injected rule options).options.async
         then ((rCheckMk defaultA injected rule options).abolish.checkAsync
                newValue (rCheckMk defaultA injected rule options).rule).2
         else ((rCheckMk defaultA injected rule options).abolish.check
                newValue (rCheckMk defaultA injected rule options).rule).2) ∧
    (rCheckStep (rCheckMk engBad none (RuleT.base "r") {}) 1 ⟨none, none⟩).error
      = some "bad" ∧
    (rCheckStep (rCheckMk engBad none (RuleT.base "r") {}) 1 ⟨none, none⟩).validated
      = some 1 ∧
    (vRefStep (vRefMk engBad none 0 (RuleT.base "r") {}) 1 ⟨none, 0⟩).validated
      = 0 := by
  refine ⟨rfl, ?_, ?_, rfl, rfl, rfl⟩ <;>
    · simp only [rCheckStep]
      split <;> rfl

/-- Claim C10: initial contents of the refs created by each binder, before
any validation callback has run: every error ref is undefined, vRef's
validated ref holds the initial value, vReactive's validated ref holds the
empty object, rCheck's validated ref is undefined, rTest's boolean ref is
true. -/
theorem claim_C10 (defaultA : Abolish) (injected : Option Abolish)
    (def_ : Value) (rules : RuleT) (voptions : VRefOptions) (target : Obj)
    (rmap : RuleMapT) (options : AbolishVueOptions) (rule : RuleT) :
    (vRefMk defaultA injected def_ rules voptions).error = none ∧
    (vRefMk defaultA injected def_ rules voptions).validated = def_ ∧
    (vReactiveMk defaultA injected target rmap options).error = none ∧
    (vReactiveMk defaultA injected target rmap options).validated = [] ∧
    (rCheckMk defaultA injected rule options).error = none ∧
    (rCheckMk defaultA injected rule options).validated = none ∧
    (rCheckOnlyMk defaultA injected rule options).error = none ∧
    (rTestMk defaultA injected rule options).result = true :=
  ⟨rfl, rfl, rfl, rfl, rfl, rfl, rfl, rfl⟩

/-- An empty list of change events produces no change-triggered calls in
either watch branch. -/
theorem changeCalls_nil (db : Option Nat) : changeCalls db [] = [] := by
  cases db <;> simp [changeCalls, debouncedFires]

/-- Claim C3 counterexample: with default engine engDef and the explicit
option engRes (so the resolved engine is engRes), the synchronous branch of
rCheckOnly reports engDef's error — it consults the default engine, not the
resolved one — while the asynchronous branch reports engRes's absent error —
it consults the resolved engine, not the default.  This is the opposite
attribution to the claim's. -/
theorem claim_C3_counterexample :
    (rCheckOnlyMk engDef none (RuleT.base "r")
        { Abolish := some engRes }).abolish = engRes ∧
    rCheckOnlyStep engDef
        (rCheckOnlyMk engDef none (RuleT.base "r") { Abolish := some engRes }) 3
      = some "from-default" ∧
    rCheckOnlyStep engDef
        (rCheckOnlyMk engDef none (RuleT.base "r") { Abolish := some engRes }) 3
      ≠ (engRes.check 3 (RuleT.base "r")).1 ∧
    rCheckOnlyStep engDef
        (rCheckOnlyMk engDef none (RuleT.base "r")
          { Abolish := some engRes, async := some true }) 3
      = none ∧
    rCheckOnlyStep engDef
        (rCheckOnlyMk engDef none (RuleT.base "r")
          { Abolish := some engRes, async := some true }) 3
      ≠ (engDef.checkAsync 3 (RuleT.base "r")).1 := by
  refine ⟨rfl, rfl, ?_, rfl, ?_⟩ <;> decide

/-- Claim C3 (amended): in rCheckOnly the synchronous branch calls check on
the process-wide default engine (the static class) rather than the engine
resolved for that call, while the asynchronous branch uses the resolved
engine; so for two runs differing only in the async option the engine
consulted differs, with the sync path using the default. -/
theorem claim_C3 (defaultA : Abolish) (injected : Option Abolish)
    (rule : RuleT) (options : AbolishVueOptions) (newValue : Value) :
    (optTruthy options.async = false →
      rCheckOnlyStep defaultA (rCheckOnlyMk defaultA injected rule options)
          newValue
        = (defaultA.check newValue rule).1) ∧
    (optTruthy options.async = true →
      rCheckOnlyStep defaultA (rCheckOnlyMk defaultA injected rule options)
          newValue
        = ((rCheckOnlyMk defaultA injected rule options).abolish.checkAsync
            newValue rule).1) := by
  constructor <;> intro h <;> simp [rCheckOnlyStep, rCheckOnlyMk, h]

/-- Witness for claim C3's amended statement at concrete engines. -/
theorem claim_C3_witness :
    rCheckOnlyStep engDef
        (rCheckOnlyMk engDef none (RuleT.base "r") { Abolish := some engRes }) 3
      = (engDef.check 3 (RuleT.base "r")).1 ∧
    rCheckOnlyStep engDef
        (rCheckOnlyMk engDef none (RuleT.base "r")
          { Abolish := some engRes, async := some true }) 3
      = ((rCheckOnlyMk engDef none (RuleT.base "r")
          { Abolish := some engRes, async := some true }).abolish.checkAsync 3
          (RuleT.base "r")).1 :=
  ⟨(claim_C3 engDef none (RuleT.base "r") { Abolish := some engRes } 3).1 rfl,
   (claim_C3 engDef none (RuleT.base "r")
      { Abolish := some engRes, async := some true } 3).2 rfl⟩

/-- Claim C5: engine resolution follows the priority order explicit option →
injected context value under "abolish" → process-wide default (the explicit
option winning when given), and every binder's resolved engine is exactly
this resolution of its options. -/
theorem claim_C5 (a i defaultA : Abolish) (injected : Option Abolish)
    (def_ : Value) (rules : RuleT) (voptions : VRefOptions) (target : Obj)
    (rmap : RuleMapT) (options : AbolishVueOptions) (rule : RuleT) :
    resolveAbolish (some a) injected defaultA = a ∧
    resolveAbolish none (some i) defaultA = i ∧
    resolveAbolish none none defaultA = defaultA ∧
    (vRefMk defaultA injected def_ rules voptions).abolish
      = resolveAbolish voptions.Abolish injected defaultA ∧
    (vReactiveMk defaultA injected target rmap options).abolish
      = resolveAbolish options.Abolish injected defaultA ∧
    (rCheckMk defaultA injected rule options).abolish
      = resolveAbolish options.Abolish injected defaultA ∧
    (rCheckOnlyMk defaultA injected rule options).abolish
      = resolveAbolish options.Abolish injected defaultA ∧
    (rTestMk defaultA injected rule options).abolish
      = resolveAbolish options.Abolish injected defaultA :=
  ⟨rfl, rfl, rfl, rfl, rfl, rfl, rfl, rfl⟩

/-- Claim C6: with options.delay set, the change subscription is debounced on
the trailing edge — N chronologically ordered changes all inside a window
shorter than the configured delay produce exactly one validation call, with
the last of the N values — and a delay of true means a window of 1000 time
units. -/
theorem claim_C6 (defaultA : Abolish) (injected : Option Abolish)
    (def_ : Value) (rules : RuleT) (n : Nat) (events : List (Nat × Value))
    (t0 tn : Nat) (v0 vn : Value)
    (hn : n ≠ 0)
    (hhead : events.head? = some (t0, v0))
    (hlast : events.getLast? = some (tn, vn))
    (hchain : List.Chain' (fun a b : Nat × Value => a.1 < b.1) events)
    (hwin : ∀ e ∈ events, e.1 < t0 + n) :
    changeCalls
        (vRefMk defaultA injected def_ rules
          { delay := some (JSDelay.num n) }).debounce events
      = [vn] ∧
    (vRefMk defaultA injected def_ rules
        { delay := some JSDelay.tru }).debounce = some 1000 := by
  constructor
  · have hdb : (vRefMk defaultA injected def_ rules
        { delay := some (JSDelay.num n) }).debounce = some n := by
      simp [vRefMk, debounceOf, delayTruthy, delayMs, hn]
    rw [hdb]
    show debouncedFires n events = [vn]
    refine debouncedFires_burst n events t0 tn vn hwin hchain ?_ hlast
    intro th v hh
    rw [hhead] at hh
    simp only [Option.some.injEq, Prod.mk.injEq] at hh
    exact le_of_eq hh.1
  · rfl

/-- Witness for claim C6: three changes at times 0, 5, 9 inside a window of
10 produce the single call with the last value. -/
theorem claim_C6_witness :
    changeCalls
        (vRefMk engOk none 0 (RuleT.base "r")
          { delay := some (JSDelay.num 10) }).debounce [(0, 1), (5, 2), (9, 3)]
      = [3] ∧
    (vRefMk engOk none 0 (RuleT.base "r")
        { delay := some JSDelay.tru }).debounce = some 1000 :=
  claim_C6 engOk none 0 (RuleT.base "r") 10 [(0, 1), (5, 2), (9, 3)] 0 9 1 3
    (by decide) rfl rfl
    (List.chain'_cons.mpr ⟨by decide,
      List.chain'_cons.mpr ⟨by decide, List.chain'_singleton _⟩⟩)
    (by decide)

/-- Claim C7: the immediate option defaults to true — omitted, or any value
other than false, yields one validation call at binding creation with the
initial value — while immediate false yields no validation call before the
first change; every binder registers its watch with this same flag. -/
theorem claim_C7 (defaultA : Abolish) (injected : Option Abolish)
    (def_ : Value) (rules : RuleT) (voptions : VRefOptions) (target : Obj)
    (rmap : RuleMapT) (options : AbolishVueOptions) (rule : RuleT) :
    immediateFlag none = true ∧
    immediateFlag (some true) = true ∧
    immediateFlag (some false) = false ∧
    (vRefMk defaultA injected def_ rules voptions).immediate
      = immediateFlag voptions.immediate ∧
    (vRefMk defaultA injected def_ rules
        { voptions with immediate := some false }).calls [] = [] ∧
    (voptions.immediate ≠ some false →
      (vRefMk defaultA injected def_ rules voptions).calls [] = [def_]) ∧
    (vReactiveMk defaultA injected target rmap options).immediate
      = immediateFlag options.immediate ∧
    (rCheckMk defaultA injected rule options).immediate
      = immediateFlag options.immediate ∧
    (rCheckOnlyMk defaultA injected rule options).immediate
      = immediateFlag options.immediate ∧
    (rTestMk defaultA injected rule options).immediate
      = immediateFlag options.immediate := by
  refine ⟨rfl, rfl, rfl, rfl, ?_, ?_, rfl, rfl, rfl, rfl⟩
  · simp [VRefBinding.calls, vRefMk, immediateFlag, changeCalls_nil]
  · intro h
    simp [VRefBinding.calls, vRefMk, immediateFlag, bne_iff_ne, h,
      changeCalls_nil]

/-- Witness for claim C7: with immediate false no call happens before the
first change; with options omitted the creation-time call happens. -/
theorem claim_C7_witness :
    immediateFlag none = true ∧
    (vRefMk engOk none 4 (RuleT.base "r")
        { ({} : VRefOptions) with immediate := some false }).calls [] = [] ∧
    (vRefMk engOk none 4 (RuleT.base "r") {}).calls [] = [4] :=
  ⟨(claim_C7 engOk none 4 (RuleT.base "r") {} [] [] {} (RuleT.base "r")).1,
   (claim_C7 engOk none 4 (RuleT.base "r") {} [] [] {}
      (RuleT.base "r")).2.2.2.2.1,
   (claim_C7 engOk none 4 (RuleT.base "r") {} [] [] {}
      (RuleT.base "r")).2.2.2.2.2.1 (by decide)⟩

/-- Claim C9: AbolishPlugin.install runs init (when present) before the
engine is resolved or constructed, takes the engine from the supplied
factory and otherwise constructs a new default, provides it under the fixed
key "abolish", and always completes with that provide step — it raises no
error of its own. -/
theorem claim_C9 (options : AbolishPluginOptions) (newA : Abolish)
    (app : List (String × Abolish)) :
    (options.init.isSome = true →
      (AbolishPlugin.install options newA app).1
        = InstallEvent.initCalled ::
          (match options.abolish with
           | some _ =>
             [InstallEvent.factoryCalled, InstallEvent.provided "abolish"]
           | none =>
             [InstallEvent.constructedDefault,
              InstallEvent.provided "abolish"])) ∧
    (AbolishPlugin.install options newA app).2
      = app ++ [("abolish",
          match options.abolish with
          | some a => a
          | none => newA)] ∧
    (AbolishPlugin.install options newA app).1.getLast?
      = some (InstallEvent.provided "abolish") := by
  refine ⟨?_, ?_, ?_⟩
  · intro h
    cases habo : options.abolish <;>
      simp [AbolishPlugin.install, h, habo]
  · cases habo : options.abolish <;>
      simp [AbolishPlugin.install, habo]
  · cases hin : options.init <;> cases habo : options.abolish <;>
      simp [AbolishPlugin.install, hin, habo]

/-- Witness for claim C9 with an init callback and a factory supplied. -/
theorem claim_C9_witness :
    (AbolishPlugin.install ⟨some (), some engRes⟩ engDef []).1
      = [InstallEvent.initCalled, InstallEvent.factoryCalled,
         InstallEvent.provided "abolish"] ∧
    (AbolishPlugin.install ⟨some (), some engRes⟩ engDef []).2
      = [("abolish", engRes)] ∧
    (AbolishPlugin.install ⟨some (), some engRes⟩ engDef []).1.getLast?
      = some (InstallEvent.provided "abolish") :=
  ⟨(claim_C9 ⟨some (), some engRes⟩ engDef []).1 rfl,
   (claim_C9 ⟨some (), some engRes⟩ engDef []).2.1,
   (claim_C9 ⟨some (), some engRes⟩ engDef []).2.2⟩

end AbolishVue
